import Mathlib

/-!
Verification of the template-compiler IR data model and its bookkeeping
operations, shallowly embedded from the repository sources:

* `src/packages/compiler-core/src/index.ts` — the AST type catalogue
  (template AST family and generated-code AST family).  This file contains
  only type declarations; operations that the specification describes
  (`registerHelper`, `hoist`, the If lowering) are absent from the sources
  and are modelled from the specification text, each marked by a doc
  comment starting with "Modelled from the spec:".
* `src/packages/shared/src/makeMap.ts` — the `makeMap` predicate factory.
* `src/packages/compiler-ssr/index.js` and `src/unnamed/part_000` — the
  NODE_ENV driven package entry modules.

Machine integers of the source (offsets, indices) are modelled as `Nat`;
JavaScript strings as `String`; `T | undefined` fields as `Option`;
TypeScript union members that are referenced in the sources but declared
nowhere in the repository (e.g. `ForParseResult`, `IfConditionalExpression`,
`ForCodegenNode`, `PropsExpression`, `SlotsExpression`) are widened to the
general node type, with a comment at each occurrence.
-/

/-- Position of `interface Position` (index.ts:66-70): offset from start of
file, line, column. -/
structure Position where
  offset : Nat
  line : Nat
  column : Nat
deriving DecidableEq, Repr

/-- SourceLocation of `interface SourceLocation` (index.ts:60-64): start and
end positions plus the raw source substring.  The source field named `end`
is renamed `endPos` because `end` is a Lean keyword. -/
structure SourceLocation where
  start : Position
  endPos : Position
  source : String
deriving DecidableEq, Repr

/-- Width in offsets of a span; a synthetic stub span has width zero. -/
def spanWidth (l : SourceLocation) : Nat :=
  l.endPos.offset - l.start.offset

/-- A synthetic, zero-width location for nodes with no source origin. -/
def locStub : SourceLocation :=
  { start := { offset := 0, line := 1, column := 1 }
  , endPos := { offset := 0, line := 1, column := 1 }
  , source := "" }

/-- NodeTypes of `const enum NodeTypes` (index.ts:12-44), the kind tag
discriminating every node variant. -/
inductive NodeTypes where
  | ROOT
  | ELEMENT
  | TEXT
  | COMMENT
  | SIMPLE_EXPRESSION
  | INTERPOLATION
  | ATTRIBUTE
  | DIRECTIVE
  | COMPOUND_EXPRESSION
  | IF
  | IF_BRANCH
  | FOR
  | TEXT_CALL
  | VNODE_CALL
  | JS_CALL_EXPRESSION
  | JS_OBJECT_EXPRESSION
  | JS_PROPERTY
  | JS_ARRAY_EXPRESSION
  | JS_FUNCTION_EXPRESSION
  | JS_CONDITIONAL_EXPRESSION
  | JS_CACHE_EXPRESSION
  | JS_BLOCK_STATEMENT
  | JS_TEMPLATE_LITERAL
  | JS_IF_STATEMENT
  | JS_ASSIGNMENT_EXPRESSION
  | JS_SEQUENCE_EXPRESSION
  | JS_RETURN_STATEMENT
deriving DecidableEq, Repr

/-- ElementTypes of `const enum ElementTypes` (index.ts:46-51): the four
tag-type variants of an element node. -/
inductive ElementTypes where
  | ELEMENT
  | COMPONENT
  | SLOT
  | TEMPLATE
deriving DecidableEq, Repr

/-- Namespace of `type Namespace = number` (index.ts:6). -/
abbrev TplNamespace := Nat

/-- A JavaScript runtime-helper `symbol` (index.ts:90), modelled as a
wrapped string: each helper symbol is created once with a distinct
description, so identity equality coincides with description equality. -/
structure Symb where
  description : String
deriving DecidableEq, Repr

/-- The single tree type uniting the template AST family and the
generated-code AST family of index.ts.  TypeScript discriminates the
variants by the `type` kind tag (and, for elements, the `tagType` tag);
here each interface becomes one constructor, the kind tag being the
constructor itself (recovered by `ndKind` below).  Fields follow the
source interfaces in order; `T | undefined` becomes `Option`, unions of
convenience alias types collapse to `Nd`, string/symbol union members use
sum types. -/
inductive Nd where
  /-- TextNode (index.ts:148-151). -/
  | text (loc : SourceLocation) (content : String)
  /-- CommentNode (index.ts:153-156). -/
  | comment (loc : SourceLocation) (content : String)
  /-- AttributeNode (index.ts:158-162); `value` is a TextNode or undefined. -/
  | attributeNode (loc : SourceLocation) (name : String) (value : Option Nd)
  /-- DirectiveNode (index.ts:164-174); `parseResult?: ForParseResult` —
  `ForParseResult` is referenced but declared nowhere in the repository,
  so the memoized parse result is widened to a node. -/
  | directive (loc : SourceLocation) (name : String) (exp : Option Nd)
      (arg : Option Nd) (modifiers : List String) (parseResult : Option Nd)
  /-- SimpleExpressionNode (index.ts:176-196).  Note `hoisted?: JSChildNode`
  "points to the hoisted node" (index.ts:182-185): it stores the hoisted
  node itself, not a slot index. -/
  | simpleExpression (loc : SourceLocation) (content : String)
      (isStatic : Bool) (isConstant : Bool) (hoisted : Option Nd)
      (identifiers : Option (List String)) (isRuntimeConstant : Option Bool)
  /-- InterpolationNode (index.ts:198-201). -/
  | interpolation (loc : SourceLocation) (content : Nd)
  /-- CompoundExpressionNode (index.ts:203-218); children mix
  sub-expressions, literal strings and helper symbols. -/
  | compoundExpression (loc : SourceLocation)
      (children : List (String ⊕ Symb ⊕ Nd))
      (identifiers : Option (List String))
  /-- IfNode (index.ts:220-224); `codegenNode?: IfConditionalExpression` —
  the alias is declared nowhere in the repository, widened to a node. -/
  | ifNode (loc : SourceLocation) (branches : List Nd) (codegenNode : Option Nd)
  /-- IfBranchNode (index.ts:226-230); `condition` is undefined for the
  final else branch. -/
  | ifBranch (loc : SourceLocation) (condition : Option Nd) (children : List Nd)
  /-- ForNode (index.ts:232-241); `parseResult: ForParseResult` and
  `codegenNode?: ForCodegenNode` reference types declared nowhere in the
  repository, widened to nodes. -/
  | forNode (loc : SourceLocation) (source : Nd) (valueAlias : Option Nd)
      (keyAlias : Option Nd) (objectIndexAlias : Option Nd)
      (parseResult : Option Nd) (children : List Nd) (codegenNode : Option Nd)
  /-- TextCallNode (index.ts:243-247). -/
  | textCall (loc : SourceLocation) (content : Nd) (codegenNode : Nd)
  /-- PlainElementNode (index.ts:117-125): tagType ElementTypes.ELEMENT;
  base fields of BaseElementNode (index.ts:107-115) then
  `codegenNode: VNodeCall | SimpleExpressionNode | CacheExpression |
  undefined` and `ssrCodegenNode?: TemplateLiteral`. -/
  | plainElement (loc : SourceLocation) (ns : TplNamespace) (tag : String)
      (isSelfClosing : Bool) (props : List Nd) (children : List Nd)
      (codegenNode : Option Nd) (ssrCodegenNode : Option Nd)
  /-- ComponentNode (index.ts:127-134): tagType ElementTypes.COMPONENT. -/
  | componentElement (loc : SourceLocation) (ns : TplNamespace) (tag : String)
      (isSelfClosing : Bool) (props : List Nd) (children : List Nd)
      (codegenNode : Option Nd) (ssrCodegenNode : Option Nd)
  /-- SlotOutletNode (index.ts:136-140): tagType ElementTypes.SLOT. -/
  | slotOutlet (loc : SourceLocation) (ns : TplNamespace) (tag : String)
      (isSelfClosing : Bool) (props : List Nd) (children : List Nd)
      (codegenNode : Option Nd) (ssrCodegenNode : Option Nd)
  /-- TemplateNode (index.ts:142-146): tagType ElementTypes.TEMPLATE, a
  container type that always gets compiled away — `codegenNode: undefined`
  is the literal undefined type, so the constructor carries no codegen
  field at all. -/
  | templateElement (loc : SourceLocation) (ns : TplNamespace) (tag : String)
      (isSelfClosing : Bool) (props : List Nd) (children : List Nd)
  /-- VNodeCall (index.ts:254-269); `tag: string | symbol | CallExpression`,
  `children` is a list of child nodes or a single node (the
  SlotsExpression / ForRenderListExpression members are declared nowhere
  in the repository and collapse to `Nd`). -/
  | vnodeCall (loc : SourceLocation) (tag : String ⊕ Symb ⊕ Nd)
      (props : Option Nd) (children : Option (List Nd ⊕ Nd))
      (patchFlag : Option String) (dynamicProps : Option String)
      (directives : Option Nd) (isBlock : Bool) (isForBlock : Bool)
  /-- CallExpression (index.ts:289-299). -/
  | callExpression (loc : SourceLocation) (callee : String ⊕ Symb)
      (arguments : List (String ⊕ Symb ⊕ (Nd ⊕ List Nd)))
  /-- ObjectExpression (index.ts:301-304). -/
  | objectExpression (loc : SourceLocation) (properties : List Nd)
  /-- Property (index.ts:306-310). -/
  | property (loc : SourceLocation) (key : Nd) (value : Nd)
  /-- ArrayExpression (index.ts:312-315). -/
  | arrayExpression (loc : SourceLocation) (elements : List (String ⊕ Nd))
  /-- FunctionExpression (index.ts:317-328). -/
  | functionExpression (loc : SourceLocation)
      (params : Option ((String ⊕ Nd) ⊕ List (String ⊕ Nd)))
      (returns : Option (Nd ⊕ List Nd)) (body : Option Nd)
      (newline : Bool) (isSlot : Bool)
  /-- ConditionalExpression (index.ts:330-336). -/
  | conditionalExpression (loc : SourceLocation) (test : Nd)
      (consequent : Nd) (alternate : Nd) (newline : Bool)
  /-- CacheExpression (index.ts:338-343): an integer slot index, the
  wrapped value node, and the isVNode marker. -/
  | cacheExpression (loc : SourceLocation) (index : Nat) (value : Nd)
      (isVNode : Bool)
  /-- BlockStatement (index.ts:355-358). -/
  | blockStatement (loc : SourceLocation) (body : List Nd)
  /-- TemplateLiteral (index.ts:360-363). -/
  | templateLiteral (loc : SourceLocation) (elements : List (String ⊕ Nd))
  /-- IfStatement (index.ts:365-370). -/
  | ifStatement (loc : SourceLocation) (test : Nd) (consequent : Nd)
      (alternate : Option Nd)
  /-- AssignmentExpression (index.ts:372-376). -/
  | assignmentExpression (loc : SourceLocation) (left : Nd) (right : Nd)
  /-- SequenceExpression (index.ts:378-381). -/
  | sequenceExpression (loc : SourceLocation) (expressions : List Nd)
  /-- ReturnStatement (index.ts:383-386). -/
  | returnStatement (loc : SourceLocation) (returns : Nd ⊕ List Nd)

/-- The kind tag of a node, i.e. the `type: NodeTypes` field every
interface of index.ts fixes for its variant. -/
def ndKind : Nd → NodeTypes
  | .text .. => .TEXT
  | .comment .. => .COMMENT
  | .attributeNode .. => .ATTRIBUTE
  | .directive .. => .DIRECTIVE
  | .simpleExpression .. => .SIMPLE_EXPRESSION
  | .interpolation .. => .INTERPOLATION
  | .compoundExpression .. => .COMPOUND_EXPRESSION
  | .ifNode .. => .IF
  | .ifBranch .. => .IF_BRANCH
  | .forNode .. => .FOR
  | .textCall .. => .TEXT_CALL
  | .plainElement .. => .ELEMENT
  | .componentElement .. => .ELEMENT
  | .slotOutlet .. => .ELEMENT
  | .templateElement .. => .ELEMENT
  | .vnodeCall .. => .VNODE_CALL
  | .callExpression .. => .JS_CALL_EXPRESSION
  | .objectExpression .. => .JS_OBJECT_EXPRESSION
  | .property .. => .JS_PROPERTY
  | .arrayExpression .. => .JS_ARRAY_EXPRESSION
  | .functionExpression .. => .JS_FUNCTION_EXPRESSION
  | .conditionalExpression .. => .JS_CONDITIONAL_EXPRESSION
  | .cacheExpression .. => .JS_CACHE_EXPRESSION
  | .blockStatement .. => .JS_BLOCK_STATEMENT
  | .templateLiteral .. => .JS_TEMPLATE_LITERAL
  | .ifStatement .. => .JS_IF_STATEMENT
  | .assignmentExpression .. => .JS_ASSIGNMENT_EXPRESSION
  | .sequenceExpression .. => .JS_SEQUENCE_EXPRESSION
  | .returnStatement .. => .JS_RETURN_STATEMENT

/-- The `loc: SourceLocation` header field (interface Node, index.ts:53-56)
that every node interface inherits. -/
def locOf : Nd → SourceLocation
  | .text l _ => l
  | .comment l _ => l
  | .attributeNode l _ _ => l
  | .directive l _ _ _ _ _ => l
  | .simpleExpression l _ _ _ _ _ _ => l
  | .interpolation l _ => l
  | .compoundExpression l _ _ => l
  | .ifNode l _ _ => l
  | .ifBranch l _ _ => l
  | .forNode l _ _ _ _ _ _ _ => l
  | .textCall l _ _ => l
  | .plainElement l _ _ _ _ _ _ _ => l
  | .componentElement l _ _ _ _ _ _ _ => l
  | .slotOutlet l _ _ _ _ _ _ _ => l
  | .templateElement l _ _ _ _ _ => l
  | .vnodeCall l _ _ _ _ _ _ _ _ => l
  | .callExpression l _ _ => l
  | .objectExpression l _ => l
  | .property l _ _ => l
  | .arrayExpression l _ => l
  | .functionExpression l _ _ _ _ _ => l
  | .conditionalExpression l _ _ _ _ => l
  | .cacheExpression l _ _ _ => l
  | .blockStatement l _ => l
  | .templateLiteral l _ => l
  | .ifStatement l _ _ _ => l
  | .assignmentExpression l _ _ => l
  | .sequenceExpression l _ => l
  | .returnStatement l _ => l

/-- Store a span into a node's `loc` field, leaving every other field
unchanged; witnesses that each node kind carries the span as stored data. -/
def setLoc (n : Nd) (l : SourceLocation) : Nd :=
  match n with
  | .text _ a => .text l a
  | .comment _ a => .comment l a
  | .attributeNode _ a b => .attributeNode l a b
  | .directive _ a b c d e => .directive l a b c d e
  | .simpleExpression _ a b c d e f => .simpleExpression l a b c d e f
  | .interpolation _ a => .interpolation l a
  | .compoundExpression _ a b => .compoundExpression l a b
  | .ifNode _ a b => .ifNode l a b
  | .ifBranch _ a b => .ifBranch l a b
  | .forNode _ a b c d e f g => .forNode l a b c d e f g
  | .textCall _ a b => .textCall l a b
  | .plainElement _ a b c d e f g => .plainElement l a b c d e f g
  | .componentElement _ a b c d e f g => .componentElement l a b c d e f g
  | .slotOutlet _ a b c d e f g => .slotOutlet l a b c d e f g
  | .templateElement _ a b c d e => .templateElement l a b c d e
  | .vnodeCall _ a b c d e f g h => .vnodeCall l a b c d e f g h
  | .callExpression _ a b => .callExpression l a b
  | .objectExpression _ a => .objectExpression l a
  | .property _ a b => .property l a b
  | .arrayExpression _ a => .arrayExpression l a
  | .functionExpression _ a b c d e => .functionExpression l a b c d e
  | .conditionalExpression _ a b c d => .conditionalExpression l a b c d
  | .cacheExpression _ a b c => .cacheExpression l a b c
  | .blockStatement _ a => .blockStatement l a
  | .templateLiteral _ a => .templateLiteral l a
  | .ifStatement _ a b c => .ifStatement l a b c
  | .assignmentExpression _ a b => .assignmentExpression l a b
  | .sequenceExpression _ a => .sequenceExpression l a
  | .returnStatement _ a => .returnStatement l a

/-- Membership in the `JSChildNode` union (index.ts:277-288): VNodeCall,
CallExpression, ObjectExpression, ArrayExpression, ExpressionNode
(simple or compound), FunctionExpression, ConditionalExpression,
CacheExpression, AssignmentExpression, SequenceExpression. -/
def isJSChildNode : Nd → Bool
  | .vnodeCall .. => true
  | .callExpression .. => true
  | .objectExpression .. => true
  | .arrayExpression .. => true
  | .simpleExpression .. => true
  | .compoundExpression .. => true
  | .functionExpression .. => true
  | .conditionalExpression .. => true
  | .cacheExpression .. => true
  | .assignmentExpression .. => true
  | .sequenceExpression .. => true
  | _ => false

/-- The thirteen generated-code node kinds: call, object, array, property,
function, conditional, cache, assignment, sequence, return, block,
if-statement, template-literal (index.ts:289-386). -/
def isGenCodeNode : Nd → Bool
  | .callExpression .. => true
  | .objectExpression .. => true
  | .arrayExpression .. => true
  | .property .. => true
  | .functionExpression .. => true
  | .conditionalExpression .. => true
  | .cacheExpression .. => true
  | .assignmentExpression .. => true
  | .sequenceExpression .. => true
  | .returnStatement .. => true
  | .blockStatement .. => true
  | .ifStatement .. => true
  | .templateLiteral .. => true
  | _ => false

/-- The element tag-type discriminant (`tagType: ElementTypes`,
index.ts:111), `none` on non-element nodes. -/
def tagTypeOf : Nd → Option ElementTypes
  | .plainElement .. => some .ELEMENT
  | .componentElement .. => some .COMPONENT
  | .slotOutlet .. => some .SLOT
  | .templateElement .. => some .TEMPLATE
  | _ => none

/-- The `codegenNode` field of the four element variants: present
(optionally) on plain elements, components and slot outlets
(index.ts:119-138), structurally absent on template containers
(index.ts:145: `codegenNode: undefined`); `none` on non-element nodes. -/
def elementCodegenNode : Nd → Option Nd
  | .plainElement _ _ _ _ _ _ cg _ => cg
  | .componentElement _ _ _ _ _ _ cg _ => cg
  | .slotOutlet _ _ _ _ _ _ cg _ => cg
  | .templateElement .. => none
  | _ => none

/-- The hoist back-reference of a simple expression: the `hoisted?:
JSChildNode` field (index.ts:181-185), which "points to the hoisted
node". -/
def hoistedRef : Nd → Option Nd
  | .simpleExpression _ _ _ _ h _ _ => h
  | _ => none

/-- The `index: number` slot index of a cache expression (index.ts:340). -/
def cacheIndex : Nd → Option Nat
  | .cacheExpression _ i _ _ => some i
  | _ => none

/-- The `value: JSChildNode` wrapped node of a cache expression
(index.ts:341). -/
def cacheValue : Nd → Option Nd
  | .cacheExpression _ _ v _ => some v
  | _ => none

/-- Modelled from the spec: an import specifier needed by generated code
(RootNode.imports, index.ts:94); the `ImportItem` type is referenced in
the sources but declared nowhere in the repository. -/
structure ImportItem where
  exp : Nd
  path : String

/-- RootNode of `interface RootNode` (index.ts:87-99): children, the
helper-symbol list, component and directive name lists, the hoist arena
(entries may be null holes), import specifiers, the cache-slot and
temporary-variable counters, optional ssr helpers and the optional
finalized codegen node.  A root is only ever the top of a tree
(TemplateChildNode, index.ts:76-85, excludes it), so it sits outside
`Nd`. -/
structure RootNode where
  loc : SourceLocation
  children : List Nd
  helpers : List Symb
  components : List String
  directives : List String
  hoists : List (Option Nd)
  imports : List ImportItem
  cached : Nat
  temps : Nat
  ssrHelpers : Option (List Symb)
  codegenNode : Option Nd

/-- An empty root over no source, the state a compilation starts from. -/
def emptyRoot : RootNode :=
  { loc := locStub, children := [], helpers := [], components := []
  , directives := [], hoists := [], imports := [], cached := 0, temps := 0
  , ssrHelpers := none, codegenNode := none }

/-- Modelled from the spec: `registerHelper(symbol) → void` of the
transform context (absent from the sources, which hold only the
`helpers: symbol[]` field of RootNode) "adds a runtime-helper identifier
to the root's helper set (idempotent — a set, not a list with
duplicates)". -/
def registerHelper (r : RootNode) (s : Symb) : RootNode :=
  if s ∈ r.helpers then r else { r with helpers := r.helpers ++ [s] }

/-- Modelled from the spec: `hoist(node) → index` of the transform context
(absent from the sources, which hold only the `hoists` arena field of
RootNode) "appends a node to Root.hoists, returns its slot index". -/
def hoist (r : RootNode) (n : Nd) : RootNode × Nat :=
  ({ r with hoists := r.hoists ++ [some n] }, r.hoists.length)

/-- Modelled from the spec: invalidation of a hoist leaves a hole (a null
entry) in the arena — "may contain holes if a hoist was later
invalidated" — without renumbering any slot. -/
def invalidateHoist (r : RootNode) (i : Nat) : RootNode :=
  { r with hoists := r.hoists.set i none }

/-- An event affecting the hoist arena during one compilation: either a
new hoist or the invalidation of an existing slot. -/
inductive HoistOp where
  | doHoist (n : Nd)
  | doInvalidate (i : Nat)

/-- Apply one hoist-arena event to the root. -/
def applyHoistOp (r : RootNode) : HoistOp → RootNode
  | .doHoist n => (hoist r n).1
  | .doInvalidate i => invalidateHoist r i

/-- Apply a whole compilation's sequence of hoist-arena events. -/
def applyHoistOps (r : RootNode) (ops : List HoistOp) : RootNode :=
  ops.foldl applyHoistOp r

/-- Whether an event performs a hoist. -/
def isHoistEvent : HoistOp → Bool
  | .doHoist _ => true
  | .doInvalidate _ => false

/-- Number of hoists performed by a sequence of events. -/
def countHoists (ops : List HoistOp) : Nat :=
  (ops.filter isHoistEvent).length

/-- Whether an if branch carries no condition expression (the else
branch shape of IfBranchNode, index.ts:228). -/
def hasNoCondition : Nd → Bool
  | .ifBranch _ none _ => true
  | _ => false

/-- Decides the invariant "at most one branch has no condition, and if
present it is the last branch": every branch other than the last carries
a condition. -/
def elseLastOnlyB : List Nd → Bool
  | [] => true
  | b :: rest => (rest.isEmpty || !(hasNoCondition b)) && elseLastOnlyB rest

/-- Modelled from the spec: the If lowering (absent from the sources,
which hold only the IfNode/IfBranchNode types) assembles `If.branches`
from the one v-if branch and its v-else-if continuations — each carrying
a condition — followed by the optional trailing v-else branch, which
carries none. -/
def buildIfBranches (l : SourceLocation) (condBranches : List (Nd × List Nd))
    (elseChildren : Option (List Nd)) : List Nd :=
  condBranches.map (fun cb => Nd.ifBranch l (some cb.1) cb.2) ++
    (match elseChildren with
     | none => []
     | some cs => [Nd.ifBranch l none cs])

/-- Modelled from the spec: codegen for an If node (absent from the
sources) "must produce a chain where the final alternate is the
else-branch body, not another condition check" — each conditioned branch
becomes one conditional level whose alternate handles the remaining
branches, a condition-less branch contributes its body directly, and a
chain that runs out of branches falls back to the default alternate
(`body` is the branch-body lowering, a parameter because its exact shape
is the per-node-kind lowering policy). -/
def buildIfCodegen (body : List Nd → Nd) (defaultAlt : Nd) : List Nd → Nd
  | [] => defaultAlt
  | Nd.ifBranch l cond cs :: rest =>
      match cond with
      | some c => Nd.conditionalExpression l c (body cs)
          (buildIfCodegen body defaultAlt rest) true
      | none => body cs
  | _ :: rest => buildIfCodegen body defaultAlt rest

/-- JavaScript `String.prototype.split(',')` over the character list: the
comma-separated fragments, where the empty string splits to the
one-element list holding the empty string. -/
def splitCommaAux : List Char → List Char → List String
  | [], acc => [⟨acc.reverse⟩]
  | c :: rest, acc =>
      if c = ',' then ⟨acc.reverse⟩ :: splitCommaAux rest []
      else splitCommaAux rest (c :: acc)

/-- JavaScript `str.split(',')` as used in makeMap.ts:11. -/
def splitComma (s : String) : List String :=
  splitCommaAux s.data []

/-- JavaScript `String.prototype.toLowerCase` as used in makeMap.ts:15,
restricted to the ASCII range its callers exercise: each character is
lowercased independently (`Char.toLower` maps A-Z to a-z and leaves every
other character unchanged). -/
def jsToLowerCase (s : String) : String :=
  ⟨s.data.map Char.toLower⟩

/-- makeMap of makeMap.ts:6-16: builds a prototype-free map holding `true`
at each comma-separated entry of `str`, and returns the predicate reading
that map — at `val.toLowerCase()` when `expectsLowerCase` is set, at
`val` itself otherwise.  The map built by the source's assignment loop is
embedded as the lookup function the loop produces. -/
def makeMap (str : String) (expectsLowerCase : Bool) : String → Bool :=
  let list : List String := splitComma str
  let map : String → Bool :=
    list.foldl (fun m entry => fun k => if k == entry then true else m k)
      (fun _ => false)
  if expectsLowerCase then fun val => map (jsToLowerCase val)
  else fun val => map val

/-- The development bundle path of compiler-ssr/index.js:6. -/
def compilerSsrDevBundle : String := "./dist/compiler-ssr.cjs.js"

/-- The production bundle path of compiler-ssr/index.js:4. -/
def compilerSsrProdBundle : String := "./dist/compiler-ssr.cjs.prod.js"

/-- compiler-ssr/index.js:3-7: the entry module exports the '.prod'
bundle exactly when `process.env.NODE_ENV === 'production'` (the
environment variable is a string or undefined, hence `Option String`),
and the development bundle otherwise. -/
def compilerSsrEntry (nodeEnv : Option String) : String :=
  if nodeEnv = some "production" then compilerSsrProdBundle
  else compilerSsrDevBundle

/-- The development bundle path of unnamed/part_000 line 6. -/
def templateExplorerDevBundle : String := "./dist/template-explorer.cjs.js"

/-- The production bundle path of unnamed/part_000 line 4. -/
def templateExplorerProdBundle : String := "./dist/template-explorer.cjs.prod.js"

/-- unnamed/part_000 lines 3-7: same NODE_ENV switch for the
template-explorer package entry. -/
def templateExplorerEntry (nodeEnv : Option String) : String :=
  if nodeEnv = some "production" then templateExplorerProdBundle
  else templateExplorerDevBundle

/-- The property claim C1 asserts, stated over the embedded source types:
a codegen node referring to a hoisted node would store only an integer
slot index, never the node — so its `hoisted` back-reference field would
carry no node.  (In the source, `SimpleExpressionNode.hoisted?:
JSChildNode` stores the hoisted node itself.) -/
def specHoistBackRefIndexOnly : Prop :=
  ∀ e : Nd, isJSChildNode e = true → hoistedRef e = none

/-- A concrete hoisted vnode call, the kind of node `hoist` moves into the
root's arena. -/
def exHoistTarget : Nd :=
  Nd.vnodeCall locStub (Sum.inl "div") none none none none none false false

/-- A concrete simple expression aliasing the hoisted node, shaped as the
`hoisted` field of index.ts:181-185 prescribes. -/
def exHoistedRefExpr : Nd :=
  Nd.simpleExpression locStub "_hoisted_1" false true (some exHoistTarget)
    none none

/-- A concrete static text node used by the hoist-arena witnesses. -/
def exTextNode : Nd := Nd.text locStub "hello"

/-- A root whose arena already holds one hoisted node. -/
def exRootOneHoist : RootNode := (hoist emptyRoot exTextNode).1

/-- A concrete helper symbol. -/
def exHelperSymb : Symb := { description := "createVNode" }

/-- A concrete template-container element node. -/
def exTemplateElem : Nd :=
  Nd.templateElement locStub 0 "template" false [] []

/-- Reading the map makeMap builds by its assignment loop agrees with
membership in the entry list: the fold flips exactly the listed keys to
true. -/
theorem makeMap_lookup_foldl (l : List String) (m0 : String → Bool) (k : String) :
    (l.foldl (fun m entry => fun x => if x == entry then true else m x) m0) k
      = (m0 k || l.contains k) := by
  induction l generalizing m0 with
  | nil => simp
  | cons e t ih =>
    simp only [List.foldl_cons, ih, List.contains_cons]
    by_cases h : k = e
    · simp [h]
    · have hb : (k == e) = false := by simp [h]
      simp [hb]

/-- Without the lowercase flag, the predicate of makeMap is exactly
membership of the key in the comma-split entry list. -/
theorem makeMap_eq_contains (str key : String) :
    makeMap str false key = (splitComma str).contains key := by
  show (splitComma str).foldl
      (fun m entry => fun k => if k == entry then true else m k)
      (fun _ => false) key = _
  rw [makeMap_lookup_foldl]
  simp

/-- With the lowercase flag, the predicate of makeMap is membership of the
lowercased key in the verbatim entry list. -/
theorem makeMap_lower_eq_contains (str key : String) :
    makeMap str true key = (splitComma str).contains (jsToLowerCase key) := by
  show (splitComma str).foldl
      (fun m entry => fun k => if k == entry then true else m k)
      (fun _ => false) (jsToLowerCase key) = _
  rw [makeMap_lookup_foldl]
  simp

/-- Lowercasing never yields the uppercase letter F: characters in the
A-Z range move to a-z and all others are fixed, none of which is F. -/
theorem char_toLower_ne_F (c : Char) : c.toLower ≠ 'F' := by
  by_cases h : c.toNat ≥ 65 ∧ c.toNat ≤ 90
  · intro hc
    have h2 : Nat.isValidChar (c.toNat + 32) := Or.inl (by omega)
    have h3 : (Char.ofNat (c.toNat + 32)).toNat = c.toNat + 32 := by
      unfold Char.ofNat
      rw [dif_pos h2]
      rfl
    have hc2 : Char.ofNat (c.toNat + 32) = 'F' := by
      simpa [Char.toLower, h] using hc
    rw [hc2] at h3
    have : ('F').toNat = 70 := rfl
    omega
  · intro hc
    have hc2 : c = 'F' := by simpa [Char.toLower, h] using hc
    subst hc2
    exact h (by constructor <;> decide)

/-- No key lowercases to the string Foo, since its first character would
have to lowercase to F. -/
theorem jsToLowerCase_ne_Foo (key : String) : jsToLowerCase key ≠ "Foo" := by
  intro h
  have hd : key.data.map Char.toLower = ['F', 'o', 'o'] :=
    congrArg String.data h
  cases hk : key.data with
  | nil => rw [hk] at hd; simp at hd
  | cons c t =>
    rw [hk] at hd
    simp only [List.map_cons, List.cons.injEq] at hd
    exact char_toLower_ne_F c hd.1

/-- C3: with the lowercase flag absent/false, the predicate returned by
makeMap(str) answers true exactly when the key equals one of the
substrings obtained by splitting str on ','; in particular keys inherited
from Object.prototype such as toString answer false unless listed, and
the empty string queried against makeMap('') answers true because
splitting the empty string yields the one-element list holding the empty
string. -/
theorem makeMap_default_exact_membership (str key : String) :
    (makeMap str false key = true ↔ key ∈ splitComma str)
    ∧ makeMap "" false "" = true
    ∧ makeMap "a,b" false "toString" = false := by
  refine ⟨?_, by decide, by decide⟩
  rw [makeMap_eq_contains]
  exact List.elem_iff

/-- C3 witness: the membership characterization evaluated at the concrete
map makeMap('a,b') and key 'a'. -/
theorem makeMap_default_exact_membership_witness :
    makeMap "a,b" false "a" = true :=
  (makeMap_default_exact_membership "a,b" "a").1.mpr (by decide)

/-- C9: with the lowercase flag set, makeMap lowercases only the queried
key and never the list entries — the predicate answers true exactly when
the lowercased key equals one of the comma-separated entries of str
verbatim — and consequently for an entry list such as 'Foo', whose only
entry contains an uppercase letter, the predicate answers false for every
key. -/
theorem makeMap_lowercase_key_only (str key : String) :
    (makeMap str true key = true ↔ jsToLowerCase key ∈ splitComma str)
    ∧ makeMap "Foo" true key = false := by
  constructor
  · rw [makeMap_lower_eq_contains]
    exact List.elem_iff
  · rw [makeMap_lower_eq_contains]
    have hne : jsToLowerCase key ≠ "Foo" := jsToLowerCase_ne_Foo key
    have : splitComma "Foo" = ["Foo"] := by decide
    rw [this]
    simpa using hne

/-- C9 witness: the lowercased-key characterization evaluated at the
concrete map makeMap('abc,Def') and key 'ABC', and the all-uppercase
entry list 'Foo' rejecting the concrete key 'foo'. -/
theorem makeMap_lowercase_key_only_witness :
    makeMap "abc,Def" true "ABC" = true ∧ makeMap "Foo" true "foo" = false :=
  ⟨(makeMap_lowercase_key_only "abc,Def" "ABC").1.mpr (by decide),
   (makeMap_lowercase_key_only "Foo" "foo").2⟩

/-- C10: each package entry module selects exactly one of two prebuilt
bundles at load time based solely on NODE_ENV — the '.prod' bundle is
exported if and only if process.env.NODE_ENV is exactly the string
'production', and the development bundle is exported for every other
value, including undefined. -/
theorem entry_module_selects_bundle_by_node_env (env : Option String) :
    (compilerSsrEntry env = compilerSsrProdBundle ↔ env = some "production")
    ∧ (compilerSsrEntry env = compilerSsrDevBundle ↔ env ≠ some "production")
    ∧ (templateExplorerEntry env = templateExplorerProdBundle
        ↔ env = some "production")
    ∧ (templateExplorerEntry env = templateExplorerDevBundle
        ↔ env ≠ some "production") := by
  have h1 : compilerSsrProdBundle ≠ compilerSsrDevBundle := by decide
  have h2 : templateExplorerProdBundle ≠ templateExplorerDevBundle := by decide
  by_cases h : env = some "production" <;>
    simp [compilerSsrEntry, templateExplorerEntry, h, h1, h1.symm, h2, h2.symm]

/-- C10 witness: the bundle choice evaluated at the two concrete
environments, undefined NODE_ENV and NODE_ENV='production'. -/
theorem entry_module_selects_bundle_by_node_env_witness :
    compilerSsrEntry none = compilerSsrDevBundle
    ∧ compilerSsrEntry (some "production") = compilerSsrProdBundle
    ∧ templateExplorerEntry (some "development") = templateExplorerDevBundle :=
  ⟨(entry_module_selects_bundle_by_node_env none).2.1.mpr (by decide),
   (entry_module_selects_bundle_by_node_env (some "production")).1.mpr rfl,
   (entry_module_selects_bundle_by_node_env (some "development")).2.2.2.mpr
     (by decide)⟩

/-- C2: registerHelper is idempotent — registering a symbol twice leaves
the root's helpers equal to registering it once — and it preserves
freedom from duplicates, which together with the duplicate-free initial
root keeps Root.helpers a set (not a list with duplicates) at every point
of a compilation. -/
theorem registerHelper_idempotent_nodup (r : RootNode) (s : Symb) :
    registerHelper (registerHelper r s) s = registerHelper r s
    ∧ (r.helpers.Nodup → (registerHelper r s).helpers.Nodup)
    ∧ emptyRoot.helpers.Nodup := by
  refine ⟨?_, ?_, by simp [emptyRoot]⟩
  · by_cases h : s ∈ r.helpers
    · simp [registerHelper, h]
    · have h2 : s ∈ r.helpers ++ [s] := by simp
      simp [registerHelper, h, h2]
  · intro hnd
    by_cases h : s ∈ r.helpers
    · simpa [registerHelper, h] using hnd
    · simp only [registerHelper, h, if_false]
      rw [← List.concat_eq_append]
      exact List.Nodup.concat h hnd

/-- C2 witness: idempotence and duplicate-freedom evaluated at the empty
root and the concrete helper symbol createVNode. -/
theorem registerHelper_idempotent_nodup_witness :
    registerHelper (registerHelper emptyRoot exHelperSymb) exHelperSymb
      = registerHelper emptyRoot exHelperSymb
    ∧ (registerHelper emptyRoot exHelperSymb).helpers.Nodup :=
  ⟨(registerHelper_idempotent_nodup emptyRoot exHelperSymb).1,
   (registerHelper_idempotent_nodup emptyRoot exHelperSymb).2.1
     (by simp [emptyRoot])⟩

/-- C5: an element node of the template-container variant never carries a
codegen node — the TemplateNode interface fixes `codegenNode: undefined`,
so the embedded constructor has no codegen field and the projection is
constantly none — while the plain-element, component and slot-outlet
variants carry the optional codegen node a transform stored there. -/
theorem template_element_no_codegen_node (e : Nd) (l : SourceLocation)
    (ns : TplNamespace) (tg : String) (sc : Bool) (props ch : List Nd)
    (g : Nd) (ssr : Option Nd) :
    (tagTypeOf e = some ElementTypes.TEMPLATE → elementCodegenNode e = none)
    ∧ elementCodegenNode
        (Nd.plainElement l ns tg sc props ch (some g) ssr) = some g
    ∧ elementCodegenNode
        (Nd.componentElement l ns tg sc props ch (some g) ssr) = some g
    ∧ elementCodegenNode
        (Nd.slotOutlet l ns tg sc props ch (some g) ssr) = some g := by
  refine ⟨?_, rfl, rfl, rfl⟩
  intro h
  cases e <;> first | rfl | exact absurd h (by simp [tagTypeOf])

/-- C5 witness: the template-variant projection evaluated at a concrete
template element, alongside a concrete plain element carrying a codegen
node. -/
theorem template_element_no_codegen_node_witness :
    elementCodegenNode exTemplateElem = none
    ∧ elementCodegenNode
        (Nd.plainElement locStub 0 "div" false [] [] (some exTextNode) none)
        = some exTextNode :=
  ⟨(template_element_no_codegen_node exTemplateElem locStub 0 "div" false
      [] [] exTextNode none).1 rfl,
   (template_element_no_codegen_node exTemplateElem locStub 0 "div" false
      [] [] exTextNode none).2.1⟩

/-- C1 counterexample: the claim that every codegen node referring to a
hoisted node stores only the hoist's slot index is false — the concrete
simple expression exHoistedRefExpr is a codegen (JSChildNode) node whose
`hoisted` back-reference field stores the hoisted vnode-call node itself
(index.ts:181-185, "points to the hoisted node"); the
SimpleExpressionNode type has no slot-index field at all. -/
theorem hoist_backref_not_index_only : ¬ specHoistBackRefIndexOnly := by
  intro h
  have h1 := h exHoistedRefExpr rfl
  simp [exHoistedRefExpr, hoistedRef] at h1

/-- C1 amended: cache expressions do store an integer slot index (their
`index: number` field, alongside the wrapped value node they hold
directly), but hoist back-references are by direct node reference, not by
index — a simple expression referring to a hoisted node stores the
hoisted JSChildNode itself in its `hoisted` field. -/
theorem cache_slot_index_and_hoist_backref_by_node (l : SourceLocation)
    (i : Nat) (v : Nd) (b : Bool) (c : String) (st co : Bool) (hn : Nd)
    (ids : Option (List String)) (rc : Option Bool) :
    cacheIndex (Nd.cacheExpression l i v b) = some i
    ∧ cacheValue (Nd.cacheExpression l i v b) = some v
    ∧ isJSChildNode (Nd.cacheExpression l i v b) = true
    ∧ hoistedRef (Nd.simpleExpression l c st co (some hn) ids rc) = some hn
    ∧ isJSChildNode (Nd.simpleExpression l c st co (some hn) ids rc) = true :=
  ⟨rfl, rfl, rfl, rfl, rfl⟩

/-- C8: every generated-code node kind — call, object, array, property,
function, conditional, cache, assignment, sequence, return, block,
if-statement, template-literal — carries a source span as stored data
(storing a span into the node's loc field succeeds, changes nothing else,
and is what the loc projection reads back), and the synthetic stub span
such a node may carry when it has no source origin is zero-width. -/
theorem gen_code_nodes_carry_span (g : Nd) (l : SourceLocation)
    (h : isGenCodeNode g = true) :
    locOf (setLoc g l) = l
    ∧ ndKind (setLoc g l) = ndKind g
    ∧ isGenCodeNode (setLoc g l) = true
    ∧ spanWidth (locOf (setLoc g locStub)) = 0 := by
  cases g <;> first
    | exact ⟨rfl, rfl, rfl, rfl⟩
    | simp [isGenCodeNode] at h

/-- C8 witness: a concrete cache expression accepts the synthetic
zero-width stub span. -/
theorem gen_code_nodes_carry_span_witness :
    locOf (setLoc (Nd.cacheExpression locStub 0 exTextNode true) locStub)
      = locStub
    ∧ spanWidth (locOf (setLoc (Nd.cacheExpression locStub 0 exTextNode true)
        locStub)) = 0 :=
  ⟨(gen_code_nodes_carry_span (Nd.cacheExpression locStub 0 exTextNode true)
      locStub rfl).1,
   (gen_code_nodes_carry_span (Nd.cacheExpression locStub 0 exTextNode true)
      locStub rfl).2.2.2⟩

/-- One hoist-arena event never shrinks the arena. -/
theorem applyHoistOp_length (r : RootNode) (op : HoistOp) :
    r.hoists.length ≤ (applyHoistOp r op).hoists.length := by
  cases op <;> simp [applyHoistOp, hoist, invalidateHoist]

/-- One hoist-arena event keeps an occupied slot's node or turns the slot
into a hole, and keeps holes holes; it never rebinds the slot to another
node. -/
theorem applyHoistOp_get_stable (r : RootNode) (op : HoistOp) (i : Nat)
    (n : Nd)
    (h : r.hoists[i]? = some (some n) ∨ r.hoists[i]? = some none) :
    (applyHoistOp r op).hoists[i]? = some (some n)
    ∨ (applyHoistOp r op).hoists[i]? = some none := by
  cases op with
  | doHoist m =>
    have hi : i < r.hoists.length := by
      rcases h with h | h <;> exact (List.getElem?_eq_some.mp h).1
    show (r.hoists ++ [some m])[i]? = some (some n)
        ∨ (r.hoists ++ [some m])[i]? = some none
    rw [List.getElem?_append_left hi]
    exact h
  | doInvalidate j =>
    show (r.hoists.set j none)[i]? = some (some n)
        ∨ (r.hoists.set j none)[i]? = some none
    by_cases hij : j = i
    · subst hij
      have hj : j < r.hoists.length := by
        rcases h with h | h <;> exact (List.getElem?_eq_some.mp h).1
      right
      simp [List.getElem?_set, hj]
    · rw [show (r.hoists.set j none)[i]? = r.hoists[i]? by
        simp [List.getElem?_set, hij]]
      exact h

/-- A whole event sequence keeps an occupied slot's node or turns the slot
into a hole, and never shrinks the arena. -/
theorem applyHoistOps_stable (ops : List HoistOp) (r : RootNode) (i : Nat)
    (n : Nd)
    (h : r.hoists[i]? = some (some n) ∨ r.hoists[i]? = some none) :
    ((applyHoistOps r ops).hoists[i]? = some (some n)
      ∨ (applyHoistOps r ops).hoists[i]? = some none)
    ∧ r.hoists.length ≤ (applyHoistOps r ops).hoists.length := by
  induction ops generalizing r with
  | nil => exact ⟨h, Nat.le_refl _⟩
  | cons op t ih =>
    have step := applyHoistOp_get_stable r op i n h
    have ⟨h1, h2⟩ := ih (applyHoistOp r op) step
    exact ⟨h1, Nat.le_trans (applyHoistOp_length r op) h2⟩

/-- The arena length grows by exactly one per hoist event and is untouched
by invalidations, so the slots of a compilation are numbered by the
hoists performed. -/
theorem applyHoistOps_length (ops : List HoistOp) (r : RootNode) :
    (applyHoistOps r ops).hoists.length = r.hoists.length + countHoists ops := by
  induction ops generalizing r with
  | nil => simp [applyHoistOps, countHoists]
  | cons op t ih =>
    cases op with
    | doHoist m =>
      have : (applyHoistOps r (HoistOp.doHoist m :: t))
          = applyHoistOps (applyHoistOp r (HoistOp.doHoist m)) t := rfl
      rw [this, ih]
      simp [applyHoistOp, hoist, countHoists, isHoistEvent, List.filter]
      omega
    | doInvalidate j =>
      have : (applyHoistOps r (HoistOp.doInvalidate j :: t))
          = applyHoistOps (applyHoistOp r (HoistOp.doInvalidate j)) t := rfl
      rw [this, ih]
      simp [applyHoistOp, invalidateHoist, countHoists, isHoistEvent,
        List.filter]

/-- C6: hoist slot indices are append-only and never reused within one
compilation — hoist returns the arena position at which it stored the
node, any later sequence of hoists and invalidations leaves that slot
holding the same node or a hole (never another node) and never shrinks
the arena, and starting from the empty root the valid indices are exactly
0 up to the number of hoists performed. -/
theorem hoist_indices_append_only_stable (r : RootNode) (n : Nd)
    (ops : List HoistOp) (i : Nat)
    (h : r.hoists[i]? = some (some n) ∨ r.hoists[i]? = some none) :
    (hoist r n).2 = r.hoists.length
    ∧ (hoist r n).1.hoists[(hoist r n).2]? = some (some n)
    ∧ ((applyHoistOps r ops).hoists[i]? = some (some n)
        ∨ (applyHoistOps r ops).hoists[i]? = some none)
    ∧ r.hoists.length ≤ (applyHoistOps r ops).hoists.length
    ∧ (applyHoistOps emptyRoot ops).hoists.length = countHoists ops := by
  have st := applyHoistOps_stable ops r i n h
  refine ⟨rfl, ?_, st.1, st.2, ?_⟩
  · show (r.hoists ++ [some n])[r.hoists.length]? = some (some n)
    simp
  · rw [applyHoistOps_length]
    simp [emptyRoot]

/-- C6 witness: on a root holding one hoisted text node, an invalidation
followed by a fresh hoist leaves slot 0 a hole or the original node
(here: a hole), never another node, and the arena has grown. -/
theorem hoist_indices_append_only_stable_witness :
    (hoist exRootOneHoist exTextNode).2 = 1
    ∧ ((applyHoistOps exRootOneHoist
          [HoistOp.doInvalidate 0, HoistOp.doHoist exTextNode]).hoists[0]?
            = some (some exTextNode)
       ∨ (applyHoistOps exRootOneHoist
          [HoistOp.doInvalidate 0, HoistOp.doHoist exTextNode]).hoists[0]?
            = some none) :=
  ⟨(hoist_indices_append_only_stable exRootOneHoist exTextNode
      [HoistOp.doInvalidate 0, HoistOp.doHoist exTextNode] 0
      (Or.inl rfl)).1,
   (hoist_indices_append_only_stable exRootOneHoist exTextNode
      [HoistOp.doInvalidate 0, HoistOp.doHoist exTextNode] 0
      (Or.inl rfl)).2.2.1⟩

/-- Branch lists whose conditioned part comes first satisfy the else-last
discipline: with no else branch every branch carries a condition, and
with a trailing else branch only the last one lacks a condition. -/
theorem buildIfBranches_else_last (l : SourceLocation)
    (cb : List (Nd × List Nd)) (elseChildren : Option (List Nd)) :
    elseLastOnlyB (buildIfBranches l cb elseChildren) = true := by
  induction cb with
  | nil =>
    cases elseChildren <;> simp [buildIfBranches, elseLastOnlyB]
  | cons p t ih =>
    have hstep : buildIfBranches l (p :: t) elseChildren
        = Nd.ifBranch l (some p.1) p.2 :: buildIfBranches l t elseChildren := by
      simp [buildIfBranches]
    rw [hstep, elseLastOnlyB, ih]
    simp [hasNoCondition]

/-- The chain built over conditioned branches followed by the else branch
folds the conditions right-to-left around the else-branch body, so the
final alternate of the chain is the else-branch body itself. -/
theorem buildIfCodegen_chain (l : SourceLocation) (cb : List (Nd × List Nd))
    (cs : List Nd) (body : List Nd → Nd) (defaultAlt : Nd) :
    buildIfCodegen body defaultAlt (buildIfBranches l cb (some cs))
      = cb.foldr
          (fun p acc => Nd.conditionalExpression l p.1 (body p.2) acc true)
          (body cs) := by
  induction cb with
  | nil => simp [buildIfBranches, buildIfCodegen]
  | cons p t ih =>
    have hstep : buildIfBranches l (p :: t) (some cs)
        = Nd.ifBranch l (some p.1) p.2 :: buildIfBranches l t (some cs) := by
      simp [buildIfBranches]
    rw [hstep]
    simp [buildIfCodegen, ih]

/-- C4: branch lists assembled by the If lowering have at most one branch
without a condition, and when present it is the last branch (this also
holds with no else branch at all); and the codegen chain produced for
such a node is a right-nested conditional whose final alternate is the
else-branch body, not a further condition check. -/
theorem if_branches_else_last_and_chain_alternate (l : SourceLocation)
    (cb : List (Nd × List Nd)) (cs : List Nd) (body : List Nd → Nd)
    (defaultAlt : Nd) :
    elseLastOnlyB (buildIfBranches l cb none) = true
    ∧ elseLastOnlyB (buildIfBranches l cb (some cs)) = true
    ∧ buildIfCodegen body defaultAlt (buildIfBranches l cb (some cs))
        = cb.foldr
            (fun p acc => Nd.conditionalExpression l p.1 (body p.2) acc true)
            (body cs) :=
  ⟨buildIfBranches_else_last l cb none,
   buildIfBranches_else_last l cb (some cs),
   buildIfCodegen_chain l cb cs body defaultAlt⟩
